import Mathlib

/-!
Verification of the boundary/wraparound geometry of the `nateroids` play
volume.  The Rust source (`src/playfield/boundary.rs`, `src/movement.rs`)
is shallowly embedded below: `f32` values are modelled by `ℚ` (the claims
under verification are order/equality comparisons and field arithmetic,
which `ℚ` models exactly), `Vec3`/`Dir3`/`Quat` by rational-coordinate
structures, and Bevy's per-entity ECS iteration by an explicit map over
entity records.
-/

/-- Rational 3-vector modelling glam/bevy `Vec3` (also used for `Dir3`,
which in bevy is a `Vec3` wrapper compared componentwise). -/
structure Vec3 where
  x : ℚ
  y : ℚ
  z : ℚ
deriving DecidableEq, Repr

instance : Add Vec3 where
  add a b := ⟨a.x + b.x, a.y + b.y, a.z + b.z⟩

instance : Sub Vec3 where
  sub a b := ⟨a.x - b.x, a.y - b.y, a.z - b.z⟩

instance : HMul Vec3 ℚ Vec3 where
  hMul v s := ⟨v.x * s, v.y * s, v.z * s⟩

instance : HDiv Vec3 ℚ Vec3 where
  hDiv v s := ⟨v.x / s, v.y / s, v.z / s⟩

/-- glam `Vec3::dot`. -/
def Vec3.dot (a b : Vec3) : ℚ := a.x * b.x + a.y * b.y + a.z * b.z

/-- glam `Vec3::cross`. -/
def Vec3.cross (a b : Vec3) : Vec3 :=
  ⟨a.y * b.z - a.z * b.y, a.z * b.x - a.x * b.z, a.x * b.y - a.y * b.x⟩

/-- `Vec3::X` / `Dir3::X` -/
def Vec3.unitX : Vec3 := ⟨1, 0, 0⟩
/-- `Vec3::NEG_X` / `Dir3::NEG_X` -/
def Vec3.negX : Vec3 := ⟨-1, 0, 0⟩
/-- `Vec3::Y` / `Dir3::Y` -/
def Vec3.unitY : Vec3 := ⟨0, 1, 0⟩
/-- `Vec3::NEG_Y` / `Dir3::NEG_Y` -/
def Vec3.negY : Vec3 := ⟨0, -1, 0⟩
/-- `Vec3::Z` / `Dir3::Z` -/
def Vec3.unitZ : Vec3 := ⟨0, 0, 1⟩
/-- `Vec3::NEG_Z` / `Dir3::NEG_Z` -/
def Vec3.negZ : Vec3 := ⟨0, 0, -1⟩
/-- `Vec3::ZERO` -/
def Vec3.zero : Vec3 := ⟨0, 0, 0⟩

/-- bevy `Dir3` (a normalized direction): modelled by its underlying
vector, compared componentwise exactly as bevy's `PartialEq` does. -/
abbrev Dir3 := Vec3

/-- bevy `Quat`; carried only so the theorems can state that rotation is
untouched by the wraparound system. -/
structure Quat where
  x : ℚ
  y : ℚ
  z : ℚ
  w : ℚ
deriving DecidableEq, Repr

/-- bevy `Transform` (the fields the embedded systems touch). -/
structure Transform where
  translation : Vec3
  rotation    : Quat
  scale       : Vec3
deriving DecidableEq, Repr

/-- `BoundaryFace` from `src/playfield/boundary.rs` lines 43-51. -/
inductive BoundaryFace where
  | Left
  | Right
  | Top
  | Bottom
  | Front
  | Back
deriving DecidableEq, Repr

/-- `BoundaryFace::get_normal` from `src/playfield/boundary.rs` lines 55-64. -/
def BoundaryFace.get_normal : BoundaryFace → Vec3
  | BoundaryFace.Left => Vec3.negX
  | BoundaryFace.Right => Vec3.unitX
  | BoundaryFace.Top => Vec3.unitY
  | BoundaryFace.Bottom => Vec3.negY
  | BoundaryFace.Front => Vec3.unitZ
  | BoundaryFace.Back => Vec3.negZ

/-- `BoundaryFace::from_normal` from `src/playfield/boundary.rs` lines
66-76: a match against the six `Dir3` axis constants in source order,
`None` for everything else. -/
def BoundaryFace.from_normal (normal : Dir3) : Option BoundaryFace :=
  if normal = Vec3.unitX then some BoundaryFace.Right
  else if normal = Vec3.negX then some BoundaryFace.Left
  else if normal = Vec3.unitY then some BoundaryFace.Top
  else if normal = Vec3.negY then some BoundaryFace.Bottom
  else if normal = Vec3.unitZ then some BoundaryFace.Front
  else if normal = Vec3.negZ then some BoundaryFace.Back
  else none

/-- `Boundary` resource from `src/playfield/boundary.rs` lines 88-110;
only the fields read by the geometry queries are carried (the colour,
line-width and portal-tuning fields are rendering configuration never
read by the functions verified here). -/
structure Boundary where
  cell_count : ℕ × ℕ × ℕ
  scalar     : ℚ
  transform  : Transform
deriving DecidableEq, Repr

/-- `Boundary::calculate_teleport_position` from
`src/playfield/boundary.rs` lines 171-196: per-axis wraparound of a
position against `translation ± scale / 2`. -/
def Boundary.calculate_teleport_position (self : Boundary) (position : Vec3) : Vec3 :=
  let boundary_min := self.transform.translation - self.transform.scale / (2 : ℚ)
  let boundary_max := self.transform.translation + self.transform.scale / (2 : ℚ)
  let wrapped_position := position
  let wrapped_position :=
    if position.x ≥ boundary_max.x then { wrapped_position with x := boundary_min.x }
    else if position.x ≤ boundary_min.x then { wrapped_position with x := boundary_max.x }
    else wrapped_position
  let wrapped_position :=
    if position.y ≥ boundary_max.y then { wrapped_position with y := boundary_min.y }
    else if position.y ≤ boundary_min.y then { wrapped_position with y := boundary_max.y }
    else wrapped_position
  let wrapped_position :=
    if position.z ≥ boundary_max.z then { wrapped_position with z := boundary_min.z }
    else if position.z ≤ boundary_min.z then { wrapped_position with z := boundary_max.z }
    else wrapped_position
  wrapped_position

/-- Free function `calculate_teleport_position` from `src/movement.rs`
lines 132-157 (the `Res<Boundary>` borrow is modelled as the resource
value itself). -/
def calculate_teleport_position (position : Vec3) (boundary : Boundary) : Vec3 :=
  let boundary_min := boundary.transform.translation - boundary.transform.scale / (2 : ℚ)
  let boundary_max := boundary.transform.translation + boundary.transform.scale / (2 : ℚ)
  let wrapped_position := position
  let wrapped_position :=
    if position.x ≥ boundary_max.x then { wrapped_position with x := boundary_min.x }
    else if position.x ≤ boundary_min.x then { wrapped_position with x := boundary_max.x }
    else wrapped_position
  let wrapped_position :=
    if position.y ≥ boundary_max.y then { wrapped_position with y := boundary_min.y }
    else if position.y ≤ boundary_min.y then { wrapped_position with y := boundary_max.y }
    else wrapped_position
  let wrapped_position :=
    if position.z ≥ boundary_max.z then { wrapped_position with z := boundary_min.z }
    else if position.z ≤ boundary_min.z then { wrapped_position with z := boundary_max.z }
    else wrapped_position
  wrapped_position

/-- Spec-side helper: the per-axis wrap rule as the spec words it
("if `position[axis] >= max[axis]` set the output axis to `min[axis]`;
else if `position[axis] <= min[axis]` set it to `max[axis]`; else leave
unchanged"). -/
def wrapAxis (p lo hi : ℚ) : ℚ :=
  if p ≥ hi then lo else if p ≤ lo then hi else p

/-- Box corner `translation - scale / 2` (called `boundary_min` / `min`
throughout the source). -/
def Boundary.bmin (self : Boundary) : Vec3 :=
  self.transform.translation - self.transform.scale / (2 : ℚ)

/-- Box corner `translation + scale / 2` (called `boundary_max` / `max`
throughout the source). -/
def Boundary.bmax (self : Boundary) : Vec3 :=
  self.transform.translation + self.transform.scale / (2 : ℚ)

/-- `Portal` (declared in `src/playfield/portals.rs`, not among the
provided sources).  Modelled from the spec: "Portal: `position: Vec3` (on
or near a face), `normal: Dir3`, `radius: f32 > 0`" — exactly the three
fields read by `check_portal_overextension` and `draw_portal_arc`. -/
structure Portal where
  position : Vec3
  normal   : Dir3
  radius   : ℚ
deriving DecidableEq, Repr

/-- The `match portal.normal` computing `face_to_remove` inside
`Boundary::check_portal_overextension` (`src/playfield/boundary.rs` lines
387-395), factored out: `some` of the home face for the six axis
directions, `none` for the fall-through `_ => return overextended_faces`
arm. -/
def face_to_remove_of (normal : Dir3) : Option BoundaryFace :=
  if normal = Vec3.negX then some BoundaryFace.Left
  else if normal = Vec3.unitX then some BoundaryFace.Right
  else if normal = Vec3.negY then some BoundaryFace.Bottom
  else if normal = Vec3.unitY then some BoundaryFace.Top
  else if normal = Vec3.negZ then some BoundaryFace.Back
  else if normal = Vec3.unitZ then some BoundaryFace.Front
  else none

/-- `Boundary::check_portal_overextension` from
`src/playfield/boundary.rs` lines 359-399.  The `Vec` pushes become list
appends in source order; Rust's `retain` keeps elements for which the
predicate holds, i.e. `List.filter`; the fall-through `_ => return`
branch of the `match` is the `none` case of `face_to_remove_of`. -/
def Boundary.check_portal_overextension (self : Boundary) (portal : Portal) :
    List BoundaryFace :=
  let half_size := self.transform.scale / (2 : ℚ)
  let mn := self.transform.translation - half_size
  let mx := self.transform.translation + half_size
  let radius := portal.radius
  let overextended_faces : List BoundaryFace := []
  let overextended_faces :=
    if portal.position.x - radius < mn.x then overextended_faces ++ [BoundaryFace.Left]
    else overextended_faces
  let overextended_faces :=
    if portal.position.x + radius > mx.x then overextended_faces ++ [BoundaryFace.Right]
    else overextended_faces
  let overextended_faces :=
    if portal.position.y - radius < mn.y then overextended_faces ++ [BoundaryFace.Bottom]
    else overextended_faces
  let overextended_faces :=
    if portal.position.y + radius > mx.y then overextended_faces ++ [BoundaryFace.Top]
    else overextended_faces
  let overextended_faces :=
    if portal.position.z - radius < mn.z then overextended_faces ++ [BoundaryFace.Back]
    else overextended_faces
  let overextended_faces :=
    if portal.position.z + radius > mx.z then overextended_faces ++ [BoundaryFace.Front]
    else overextended_faces
  match face_to_remove_of portal.normal with
  | none => overextended_faces
  | some f => overextended_faces.filter (fun face => face != f)

/-- `Boundary::get_normal_for_position` from `src/playfield/boundary.rs`
lines 400-423 (ε = 0.001 is exact here: the comparisons it appears in are
modelled exactly on `ℚ`). -/
def Boundary.get_normal_for_position (self : Boundary) (position : Vec3) : Dir3 :=
  let half_size := self.transform.scale / (2 : ℚ)
  let boundary_min := self.transform.translation - half_size
  let boundary_max := self.transform.translation + half_size
  let epsilon : ℚ := 1 / 1000
  if |position.x - boundary_min.x| < epsilon then Vec3.negX
  else if |position.x - boundary_max.x| < epsilon then Vec3.unitX
  else if |position.y - boundary_min.y| < epsilon then Vec3.negY
  else if |position.y - boundary_max.y| < epsilon then Vec3.unitY
  else if |position.z - boundary_min.z| < epsilon then Vec3.negZ
  else if |position.z - boundary_max.z| < epsilon then Vec3.unitZ
  else Vec3.unitY

/-- Spec-side helper for the face classifier: the six candidate planes in
the order the spec states (x then y then z, min before max), each as
(coordinate of the position, bound, face direction). -/
def facePlaneCandidates (b : Boundary) (p : Vec3) : List (ℚ × ℚ × Vec3) :=
  [(p.x, b.bmin.x, Vec3.negX), (p.x, b.bmax.x, Vec3.unitX),
   (p.y, b.bmin.y, Vec3.negY), (p.y, b.bmax.y, Vec3.unitY),
   (p.z, b.bmin.z, Vec3.negZ), (p.z, b.bmax.z, Vec3.unitZ)]

/-- Spec-side helper: first candidate plane within tolerance wins;
default `+Y`. -/
def firstMatchingNormal (b : Boundary) (p : Vec3) : Dir3 :=
  match (facePlaneCandidates b p).find?
      (fun c => decide (|c.1 - c.2.1| < (1 / 1000 : ℚ))) with
  | some c => c.2.2
  | none => Vec3.unitY

/-- Free helper `is_in_bounds` from `src/playfield/boundary.rs` lines
471-488: which two axes to range-check is inferred by comparing `start`
with `origin`'s coordinates (an equality comparison, not an axis tag). -/
def is_in_bounds (point : Vec3) (start : ℚ) (origin : Vec3)
    (boundary_min boundary_max : Vec3) : Bool :=
  if start = origin.x then
    decide (point.y ≥ boundary_min.y) && decide (point.y ≤ boundary_max.y) &&
    decide (point.z ≥ boundary_min.z) && decide (point.z ≤ boundary_max.z)
  else if start = origin.y then
    decide (point.x ≥ boundary_min.x) && decide (point.x ≤ boundary_max.x) &&
    decide (point.z ≥ boundary_min.z) && decide (point.z ≤ boundary_max.z)
  else
    decide (point.x ≥ boundary_min.x) && decide (point.x ≤ boundary_max.x) &&
    decide (point.y ≥ boundary_min.y) && decide (point.y ≤ boundary_max.y)

/-- The running minimum `t_min` of `find_edge_point`: the source seeds it
with the sentinel `f32::MAX` and tests `t < t_min` / `t_min != f32::MAX`;
modelled as `Option ℚ` with `none` for the sentinel. -/
def ltTMin (t : ℚ) : Option ℚ → Bool
  | none => true
  | some tm => decide (t < tm)

/-- The `update_t_min` closure inside `Boundary::find_edge_point`
(`src/playfield/boundary.rs` lines 437-444): accept the candidate plane
crossing when `t > 0`, it beats the running minimum, and the crossing
point is in bounds on the other two axes. -/
def update_t_min (origin direction boundary_min boundary_max : Vec3)
    (start dir boundary : ℚ) (t_min : Option ℚ) : Option ℚ :=
  let t := (boundary - start) / dir
  let point := origin + direction * t
  if decide (t > 0) && ltTMin t t_min &&
      is_in_bounds point start origin boundary_min boundary_max
  then some t else t_min

/-- One iteration of the axis loop of `Boundary::find_edge_point`
(`src/playfield/boundary.rs` lines 431-448): skip the axis when its
direction component is zero, otherwise try the positive bound then the
negative bound. -/
def axisUpdate (origin direction boundary_min boundary_max : Vec3)
    (start dir pos_bound neg_bound : ℚ) (t_min : Option ℚ) : Option ℚ :=
  if dir ≠ 0 then
    update_t_min origin direction boundary_min boundary_max start dir neg_bound
      (update_t_min origin direction boundary_min boundary_max start dir pos_bound t_min)
  else t_min

/-- `Boundary::find_edge_point` from `src/playfield/boundary.rs` lines
425-456. -/
def Boundary.find_edge_point (self : Boundary) (origin direction : Vec3) : Option Vec3 :=
  let boundary_min := self.transform.translation - self.transform.scale / (2 : ℚ)
  let boundary_max := self.transform.translation + self.transform.scale / (2 : ℚ)
  let t_min : Option ℚ := none
  let t_min := axisUpdate origin direction boundary_min boundary_max
    origin.x direction.x boundary_max.x boundary_min.x t_min
  let t_min := axisUpdate origin direction boundary_min boundary_max
    origin.y direction.y boundary_max.y boundary_min.y t_min
  let t_min := axisUpdate origin direction boundary_min boundary_max
    origin.z direction.z boundary_max.z boundary_min.z t_min
  t_min.map (fun t => origin + direction * t)

/-- Spec-side predicate for C7: the candidate crossing of the plane
`bound` along the axis with position coordinate `start` and direction
coordinate `dir` is a valid forward, in-bounds crossing. -/
def validCrossing (origin direction mn mx : Vec3) (start dir bound : ℚ) : Prop :=
  dir ≠ 0 ∧ 0 < (bound - start) / dir ∧
    is_in_bounds (origin + direction * ((bound - start) / dir)) start origin mn mx = true

/-- Arguments that `Boundary::draw_portal_arc` (`src/playfield/boundary.rs`
lines 324-357) hands to the final `gizmos.arc_3d` call, together with the
`start_vec` from which the start rotation is built.  The quaternions
themselves come from the external `Quat::from_rotation_arc` and are not
modelled. -/
structure ArcCall where
  angle    : ℚ
  radius   : ℚ
  center   : Vec3
  startVec : Vec3
deriving DecidableEq, Repr

/-- `Boundary::draw_portal_arc` from `src/playfield/boundary.rs` lines
324-357, up to the data handed to the draw call.  `Vec3::normalize` and
`Vec3::angle_between` are external glam primitives (irrational in
general), so they are passed in as parameters; `TAU` likewise. -/
def Boundary.draw_portal_arc (self : Boundary) (tau : ℚ)
    (angleBetween : Vec3 → Vec3 → ℚ) (normalize : Vec3 → Vec3)
    (portal : Portal) (fromPoint toPoint : Vec3) : ArcCall :=
  let center := portal.position
  let radius := portal.radius
  let normal := portal.normal
  let vec_from := normalize (fromPoint - center)
  let vec_to := normalize (toPoint - center)
  let angle := angleBetween vec_from vec_to
  let cross_product := vec_from.cross vec_to
  let is_clockwise := decide (cross_product.dot normal < 0)
  let angle := tau - angle
  let start_vec := if is_clockwise then vec_from else vec_to
  { angle := angle, radius := radius, center := center, startVec := start_vec }

/-- `Wrappable` component from `src/movement.rs` lines 17-20. -/
structure Wrappable where
  wrapped : Bool
deriving DecidableEq, Repr

/-- Body of the `teleport_at_boundary` system (`src/movement.rs` lines
86-100) for one `(Transform, Wrappable)` entity. -/
def teleport_entity (boundary : Boundary) (e : Transform × Wrappable) :
    Transform × Wrappable :=
  let original_position := e.1.translation
  let wrapped_position := calculate_teleport_position original_position boundary
  if wrapped_position ≠ original_position then
    ({ e.1 with translation := wrapped_position }, { e.2 with wrapped := true })
  else
    (e.1, { e.2 with wrapped := false })

/-- `teleport_at_boundary` (`src/movement.rs` lines 86-100): the ECS
query iteration modelled as a map over the entity list. -/
def teleport_at_boundary (boundary : Boundary) (entities : List (Transform × Wrappable)) :
    List (Transform × Wrappable) :=
  entities.map (teleport_entity boundary)

/-- Spec-side helper: centre point of a boundary face. -/
def Boundary.faceCenter (b : Boundary) (f : BoundaryFace) : Vec3 :=
  let c := b.transform.translation
  match f with
  | BoundaryFace.Left => ⟨b.bmin.x, c.y, c.z⟩
  | BoundaryFace.Right => ⟨b.bmax.x, c.y, c.z⟩
  | BoundaryFace.Bottom => ⟨c.x, b.bmin.y, c.z⟩
  | BoundaryFace.Top => ⟨c.x, b.bmax.y, c.z⟩
  | BoundaryFace.Back => ⟨c.x, c.y, b.bmin.z⟩
  | BoundaryFace.Front => ⟨c.x, c.y, b.bmax.z⟩

/-- Spec-side helper: the shorter of a face's two in-plane extents. -/
def Boundary.faceShortestDim (b : Boundary) (f : BoundaryFace) : ℚ :=
  let s := b.transform.scale
  match f with
  | BoundaryFace.Left => min s.y s.z
  | BoundaryFace.Right => min s.y s.z
  | BoundaryFace.Bottom => min s.x s.z
  | BoundaryFace.Top => min s.x s.z
  | BoundaryFace.Back => min s.x s.y
  | BoundaryFace.Front => min s.x s.y

/-- Spec-side helper: the box extent along a face's normal axis. -/
def Boundary.normalExtent (b : Boundary) (f : BoundaryFace) : ℚ :=
  let s := b.transform.scale
  match f with
  | BoundaryFace.Left => s.x
  | BoundaryFace.Right => s.x
  | BoundaryFace.Bottom => s.y
  | BoundaryFace.Top => s.y
  | BoundaryFace.Back => s.z
  | BoundaryFace.Front => s.z

/-- Concrete box for the C3 counterexample: a thin box, unit extent along
x and extent 10 along y and z, centred at the origin. -/
def cexBoundary : Boundary :=
  ⟨(1, 10, 10), 1, ⟨⟨0, 0, 0⟩, ⟨0, 0, 0, 1⟩, ⟨1, 10, 10⟩⟩⟩

/-- Concrete portal for the C3 counterexample: centred on the Right face
of `cexBoundary`, radius 2 (below half the face's shortest dimension 10,
but larger than the box's x-extent 1). -/
def cexPortal : Portal := ⟨⟨1 / 2, 0, 0⟩, Vec3.unitX, 2⟩

@[simp] theorem Vec3.add_x (a b : Vec3) : (a + b).x = a.x + b.x := rfl

@[simp] theorem Vec3.add_y (a b : Vec3) : (a + b).y = a.y + b.y := rfl

@[simp] theorem Vec3.add_z (a b : Vec3) : (a + b).z = a.z + b.z := rfl

@[simp] theorem Vec3.sub_x (a b : Vec3) : (a - b).x = a.x - b.x := rfl

@[simp] theorem Vec3.sub_y (a b : Vec3) : (a - b).y = a.y - b.y := rfl

@[simp] theorem Vec3.sub_z (a b : Vec3) : (a - b).z = a.z - b.z := rfl

@[simp] theorem Vec3.smul_x (v : Vec3) (s : ℚ) : (v * s).x = v.x * s := rfl

@[simp] theorem Vec3.smul_y (v : Vec3) (s : ℚ) : (v * s).y = v.y * s := rfl

@[simp] theorem Vec3.smul_z (v : Vec3) (s : ℚ) : (v * s).z = v.z * s := rfl

@[simp] theorem Vec3.sdiv_x (v : Vec3) (s : ℚ) : (v / s).x = v.x / s := rfl

@[simp] theorem Vec3.sdiv_y (v : Vec3) (s : ℚ) : (v / s).y = v.y / s := rfl

@[simp] theorem Vec3.sdiv_z (v : Vec3) (s : ℚ) : (v / s).z = v.z / s := rfl

/-- `wrapAxis` at or above the upper bound. -/
theorem wrapAxis_hi {p lo hi : ℚ} (h : hi ≤ p) : wrapAxis p lo hi = lo :=
  if_pos h

/-- `wrapAxis` strictly between the bounds. -/
theorem wrapAxis_interior {p lo hi : ℚ} (h1 : lo < p) (h2 : p < hi) :
    wrapAxis p lo hi = p := by
  unfold wrapAxis
  rw [if_neg (not_le.mpr h2), if_neg (not_le.mpr h1)]

/-- The teleport computation, componentwise, is exactly the per-axis wrap
rule. -/
theorem teleport_eq_wrapAxis (b : Boundary) (p : Vec3) :
    b.calculate_teleport_position p =
      ⟨wrapAxis p.x b.bmin.x b.bmax.x, wrapAxis p.y b.bmin.y b.bmax.y,
       wrapAxis p.z b.bmin.z b.bmax.z⟩ := by
  simp only [Boundary.calculate_teleport_position, wrapAxis, Boundary.bmin, Boundary.bmax]
  split_ifs <;> rfl

/-- C1: for a positive-scale boundary, each output axis of
`Boundary::calculate_teleport_position` is computed independently by the
per-axis rule (at-or-above max wraps to min, at-or-below min wraps to
max, otherwise unchanged); consequently a corner crossing out of range on
x and y at once wraps both in the same call, leaving the in-range z axis
unchanged. -/
theorem teleport_per_axis (b : Boundary) (p : Vec3)
    (hx : 0 < b.transform.scale.x) (hy : 0 < b.transform.scale.y)
    (hz : 0 < b.transform.scale.z) :
    (b.calculate_teleport_position p).x = wrapAxis p.x b.bmin.x b.bmax.x
    ∧ (b.calculate_teleport_position p).y = wrapAxis p.y b.bmin.y b.bmax.y
    ∧ (b.calculate_teleport_position p).z = wrapAxis p.z b.bmin.z b.bmax.z
    ∧ (p.x = b.bmax.x → p.y = b.bmax.y → b.bmin.z < p.z → p.z < b.bmax.z →
        b.calculate_teleport_position p = ⟨b.bmin.x, b.bmin.y, p.z⟩) := by
  refine ⟨by rw [teleport_eq_wrapAxis], by rw [teleport_eq_wrapAxis],
    by rw [teleport_eq_wrapAxis], ?_⟩
  intro hpx hpy hzlo hzhi
  rw [teleport_eq_wrapAxis, wrapAxis_hi hpx.ge, wrapAxis_hi hpy.ge,
    wrapAxis_interior hzlo hzhi]

theorem teleport_per_axis_witness :
    (0 : ℚ) < 2 ∧
    ((Boundary.mk (1, 1, 1) 1 ⟨⟨1, 1, 1⟩, ⟨0, 0, 0, 1⟩, ⟨2, 2, 2⟩⟩).calculate_teleport_position
        ⟨2, 2, 1⟩).x
      = wrapAxis 2 (Boundary.mk (1, 1, 1) 1 ⟨⟨1, 1, 1⟩, ⟨0, 0, 0, 1⟩, ⟨2, 2, 2⟩⟩).bmin.x
          (Boundary.mk (1, 1, 1) 1 ⟨⟨1, 1, 1⟩, ⟨0, 0, 0, 1⟩, ⟨2, 2, 2⟩⟩).bmax.x := by
  refine ⟨by norm_num, ?_⟩
  exact (teleport_per_axis (Boundary.mk (1, 1, 1) 1 ⟨⟨1, 1, 1⟩, ⟨0, 0, 0, 1⟩, ⟨2, 2, 2⟩⟩)
    ⟨2, 2, 1⟩ (by norm_num) (by norm_num) (by norm_num)).1

/-- C2: on every position strictly inside the open box, the teleport
computation is the identity. -/
theorem teleport_identity_in_bounds (b : Boundary) (p : Vec3)
    (hx1 : b.bmin.x < p.x) (hx2 : p.x < b.bmax.x)
    (hy1 : b.bmin.y < p.y) (hy2 : p.y < b.bmax.y)
    (hz1 : b.bmin.z < p.z) (hz2 : p.z < b.bmax.z) :
    b.calculate_teleport_position p = p := by
  rw [teleport_eq_wrapAxis, wrapAxis_interior hx1 hx2, wrapAxis_interior hy1 hy2,
    wrapAxis_interior hz1 hz2]

theorem teleport_identity_in_bounds_witness :
    (Boundary.mk (1, 1, 1) 1 ⟨⟨0, 0, 0⟩, ⟨0, 0, 0, 1⟩, ⟨2, 2, 2⟩⟩).calculate_teleport_position
      ⟨1 / 2, -1 / 2, 0⟩ = ⟨1 / 2, -1 / 2, 0⟩ :=
  teleport_identity_in_bounds (Boundary.mk (1, 1, 1) 1 ⟨⟨0, 0, 0⟩, ⟨0, 0, 0, 1⟩, ⟨2, 2, 2⟩⟩)
    ⟨1 / 2, -1 / 2, 0⟩ (by norm_num [Boundary.bmin]) (by norm_num [Boundary.bmax])
    (by norm_num [Boundary.bmin]) (by norm_num [Boundary.bmax])
    (by norm_num [Boundary.bmin]) (by norm_num [Boundary.bmax])

/-- C10: the free `calculate_teleport_position` in `movement.rs` and the
method `Boundary::calculate_teleport_position` in `boundary.rs` agree on
every boundary and every position. -/
theorem teleport_impls_agree :
    ∀ (b : Boundary) (p : Vec3),
      calculate_teleport_position p b = b.calculate_teleport_position p :=
  fun _ _ => rfl

/-- C5: `from_normal` is the partial inverse of `get_normal`: it round
trips every face, returns `none` on every direction that is not one of
the six face normals, and `get_normal` sends distinct faces to distinct
signed axis unit vectors. -/
theorem from_normal_partial_inverse :
    (∀ f : BoundaryFace, BoundaryFace.from_normal (BoundaryFace.get_normal f) = some f)
    ∧ (∀ n : Dir3, (∀ f : BoundaryFace, BoundaryFace.get_normal f ≠ n) →
        BoundaryFace.from_normal n = none)
    ∧ (∀ f g : BoundaryFace, BoundaryFace.get_normal f = BoundaryFace.get_normal g → f = g) := by
  refine ⟨fun f => by cases f <;> decide, ?_,
    fun f g => by
      cases f <;> cases g <;> intro h <;> first | rfl | exact absurd h (by decide)⟩
  intro n h
  unfold BoundaryFace.from_normal
  rw [if_neg (fun hh => h BoundaryFace.Right hh.symm),
    if_neg (fun hh => h BoundaryFace.Left hh.symm),
    if_neg (fun hh => h BoundaryFace.Top hh.symm),
    if_neg (fun hh => h BoundaryFace.Bottom hh.symm),
    if_neg (fun hh => h BoundaryFace.Front hh.symm),
    if_neg (fun hh => h BoundaryFace.Back hh.symm)]

theorem from_normal_partial_inverse_witness :
    BoundaryFace.from_normal ⟨1, 1, 0⟩ = none :=
  from_normal_partial_inverse.2.1 ⟨1, 1, 0⟩ (fun f => by cases f <;> decide)

/-- C4: the face classifier is the first-match search over the six
boundary planes in the fixed order x then y then z, min before max, with
tolerance 0.001, defaulting to `+Y` when no plane is within tolerance. -/
theorem get_normal_first_match (b : Boundary) (p : Vec3) :
    b.get_normal_for_position p = firstMatchingNormal b p := by
  unfold Boundary.get_normal_for_position firstMatchingNormal facePlaneCandidates
  simp only [Boundary.bmin, Boundary.bmax]
  by_cases h1 : |p.x - (b.transform.translation - b.transform.scale / (2 : ℚ)).x| < 1 / 1000
  · rw [if_pos h1, List.find?_cons_of_pos _ (by simpa using h1)]
  · rw [if_neg h1, List.find?_cons_of_neg _ (by simpa using h1)]
    by_cases h2 : |p.x - (b.transform.translation + b.transform.scale / (2 : ℚ)).x| < 1 / 1000
    · rw [if_pos h2, List.find?_cons_of_pos _ (by simpa using h2)]
    · rw [if_neg h2, List.find?_cons_of_neg _ (by simpa using h2)]
      by_cases h3 : |p.y - (b.transform.translation - b.transform.scale / (2 : ℚ)).y| < 1 / 1000
      · rw [if_pos h3, List.find?_cons_of_pos _ (by simpa using h3)]
      · rw [if_neg h3, List.find?_cons_of_neg _ (by simpa using h3)]
        by_cases h4 : |p.y - (b.transform.translation + b.transform.scale / (2 : ℚ)).y| < 1 / 1000
        · rw [if_pos h4, List.find?_cons_of_pos _ (by simpa using h4)]
        · rw [if_neg h4, List.find?_cons_of_neg _ (by simpa using h4)]
          by_cases h5 : |p.z - (b.transform.translation - b.transform.scale / (2 : ℚ)).z| < 1 / 1000
          · rw [if_pos h5, List.find?_cons_of_pos _ (by simpa using h5)]
          · rw [if_neg h5, List.find?_cons_of_neg _ (by simpa using h5)]
            by_cases h6 : |p.z - (b.transform.translation + b.transform.scale / (2 : ℚ)).z| < 1 / 1000
            · rw [if_pos h6, List.find?_cons_of_pos _ (by simpa using h6)]
            · rw [if_neg h6, List.find?_cons_of_neg _ (by simpa using h6)]
              rfl

/-- C9: one tick of the wraparound system overwrites each wrappable
entity's `wrapped` flag — true exactly when the computed teleport target
differs from the current translation (the translation then becomes the
target), false otherwise (translation untouched); rotation and scale are
never modified, and the system is exactly the per-entity step mapped
over all wrappable entities. -/
theorem teleport_at_boundary_flag (b : Boundary) (t : Transform) (w : Wrappable) :
    ((teleport_entity b (t, w)).2.wrapped = true ↔
        calculate_teleport_position t.translation b ≠ t.translation)
    ∧ (teleport_entity b (t, w)).1.translation = calculate_teleport_position t.translation b
    ∧ (teleport_entity b (t, w)).1.rotation = t.rotation
    ∧ (teleport_entity b (t, w)).1.scale = t.scale
    ∧ ∀ es : List (Transform × Wrappable),
        teleport_at_boundary b es = es.map (teleport_entity b) := by
  have h5 : ∀ es : List (Transform × Wrappable),
      teleport_at_boundary b es = es.map (teleport_entity b) := fun _ => rfl
  refine ⟨?_, ?_, ?_, ?_, h5⟩ <;>
  · unfold teleport_entity
    by_cases h : calculate_teleport_position t.translation b = t.translation <;> simp [h]

/-- `face_to_remove_of` inverts `get_normal` on the six axis directions. -/
theorem face_to_remove_of_get_normal (f : BoundaryFace) :
    face_to_remove_of f.get_normal = some f := by
  cases f <;> decide

/-- C3 counterexample: on the thin box `cexBoundary`, the portal
`cexPortal` satisfies every premise of the claim's "in particular" clause
(axis-aligned normal, centred exactly on the Right face, radius below
half that face's shortest dimension), yet its overextension set is
`[Left]`, not empty: the per-axis bounding-interval test also fires on
the face opposite the portal's home face whenever the radius exceeds the
box extent along the normal axis. -/
theorem check_portal_overextension_cex :
    cexPortal.normal = BoundaryFace.Right.get_normal
    ∧ cexPortal.position = cexBoundary.faceCenter BoundaryFace.Right
    ∧ 2 * cexPortal.radius < cexBoundary.faceShortestDim BoundaryFace.Right
    ∧ cexBoundary.check_portal_overextension cexPortal = [BoundaryFace.Left] := by
  refine ⟨rfl, ?_, ?_, ?_⟩
  · norm_num [cexPortal, cexBoundary, Boundary.faceCenter, Boundary.bmax,
      Vec3.add_x, Vec3.add_y, Vec3.add_z, Vec3.sdiv_x, Vec3.sdiv_y, Vec3.sdiv_z, Vec3.mk.injEq]
  · norm_num [cexPortal, cexBoundary, Boundary.faceShortestDim]
  · norm_num [cexPortal, cexBoundary, Boundary.check_portal_overextension, face_to_remove_of,
      Vec3.unitX, Vec3.negX, Vec3.unitY, Vec3.negY, Vec3.unitZ, Vec3.negZ,
      Vec3.add_x, Vec3.add_y, Vec3.add_z, Vec3.sub_x, Vec3.sub_y, Vec3.sub_z,
      Vec3.sdiv_x, Vec3.sdiv_y, Vec3.sdiv_z, Vec3.mk.injEq]
    decide

/-- C3 (amended): the overextension set never contains the portal's own
home face; and a portal centred exactly on a face, with radius less than
half the face's shortest dimension and also at most the box extent along
the portal's normal axis, yields an empty overextension set. -/
theorem check_portal_overextension_amended :
    (∀ (b : Boundary) (p : Portal) (f : BoundaryFace),
        p.normal = f.get_normal → f ∉ b.check_portal_overextension p)
    ∧ (∀ (b : Boundary) (f : BoundaryFace) (r : ℚ),
        2 * r < b.faceShortestDim f → r ≤ b.normalExtent f →
        b.check_portal_overextension ⟨b.faceCenter f, f.get_normal, r⟩ = []) := by
  constructor
  · intro b p f hn
    simp only [Boundary.check_portal_overextension, hn, face_to_remove_of_get_normal]
    simp [List.mem_filter]
  · intro b f r h1 h2
    cases f <;> simp only [Boundary.faceShortestDim, Boundary.normalExtent] at h1 h2
    case Left =>
      have hm1 := min_le_left b.transform.scale.y b.transform.scale.z
      have hm2 := min_le_right b.transform.scale.y b.transform.scale.z
      have e2 : ¬ (b.transform.translation.x - b.transform.scale.x / 2 + r > b.transform.translation.x + b.transform.scale.x / 2) := by linarith
      have e3 : ¬ (b.transform.translation.y - r < b.transform.translation.y - b.transform.scale.y / 2) := by linarith
      have e4 : ¬ (b.transform.translation.y + r > b.transform.translation.y + b.transform.scale.y / 2) := by linarith
      have e5 : ¬ (b.transform.translation.z - r < b.transform.translation.z - b.transform.scale.z / 2) := by linarith
      have e6 : ¬ (b.transform.translation.z + r > b.transform.translation.z + b.transform.scale.z / 2) := by linarith
      rcases le_or_lt r 0 with hr | hr
      · have eh : ¬ (b.transform.translation.x - b.transform.scale.x / 2 - r < b.transform.translation.x - b.transform.scale.x / 2) := by linarith
        simp [Boundary.check_portal_overextension, Boundary.faceCenter,
          face_to_remove_of_get_normal, Boundary.bmin, Boundary.bmax,
          Vec3.add_x, Vec3.add_y, Vec3.add_z, Vec3.sub_x, Vec3.sub_y, Vec3.sub_z,
          Vec3.sdiv_x, Vec3.sdiv_y, Vec3.sdiv_z,
          e2, e3, e4, e5, e6, eh]
      · have eh : b.transform.translation.x - b.transform.scale.x / 2 - r < b.transform.translation.x - b.transform.scale.x / 2 := by linarith
        simp [Boundary.check_portal_overextension, Boundary.faceCenter,
          face_to_remove_of_get_normal, Boundary.bmin, Boundary.bmax,
          Vec3.add_x, Vec3.add_y, Vec3.add_z, Vec3.sub_x, Vec3.sub_y, Vec3.sub_z,
          Vec3.sdiv_x, Vec3.sdiv_y, Vec3.sdiv_z,
          e2, e3, e4, e5, e6, eh]
    case Right =>
      have hm1 := min_le_left b.transform.scale.y b.transform.scale.z
      have hm2 := min_le_right b.transform.scale.y b.transform.scale.z
      have e1 : ¬ (b.transform.translation.x + b.transform.scale.x / 2 - r < b.transform.translation.x - b.transform.scale.x / 2) := by linarith
      have e3 : ¬ (b.transform.translation.y - r < b.transform.translation.y - b.transform.scale.y / 2) := by linarith
      have e4 : ¬ (b.transform.translation.y + r > b.transform.translation.y + b.transform.scale.y / 2) := by linarith
      have e5 : ¬ (b.transform.translation.z - r < b.transform.translation.z - b.transform.scale.z / 2) := by linarith
      have e6 : ¬ (b.transform.translation.z + r > b.transform.translation.z + b.transform.scale.z / 2) := by linarith
      rcases le_or_lt r 0 with hr | hr
      · have eh : ¬ (b.transform.translation.x + b.transform.scale.x / 2 + r > b.transform.translation.x + b.transform.scale.x / 2) := by linarith
        simp [Boundary.check_portal_overextension, Boundary.faceCenter,
          face_to_remove_of_get_normal, Boundary.bmin, Boundary.bmax,
          Vec3.add_x, Vec3.add_y, Vec3.add_z, Vec3.sub_x, Vec3.sub_y, Vec3.sub_z,
          Vec3.sdiv_x, Vec3.sdiv_y, Vec3.sdiv_z,
          e1, e3, e4, e5, e6, eh]
      · have eh : b.transform.translation.x + b.transform.scale.x / 2 + r > b.transform.translation.x + b.transform.scale.x / 2 := by linarith
        simp [Boundary.check_portal_overextension, Boundary.faceCenter,
          face_to_remove_of_get_normal, Boundary.bmin, Boundary.bmax,
          Vec3.add_x, Vec3.add_y, Vec3.add_z, Vec3.sub_x, Vec3.sub_y, Vec3.sub_z,
          Vec3.sdiv_x, Vec3.sdiv_y, Vec3.sdiv_z,
          e1, e3, e4, e5, e6, eh]
    case Bottom =>
      have hm1 := min_le_left b.transform.scale.x b.transform.scale.z
      have hm2 := min_le_right b.transform.scale.x b.transform.scale.z
      have e1 : ¬ (b.transform.translation.x - r < b.transform.translation.x - b.transform.scale.x / 2) := by linarith
      have e2 : ¬ (b.transform.translation.x + r > b.transform.translation.x + b.transform.scale.x / 2) := by linarith
      have e4 : ¬ (b.transform.translation.y - b.transform.scale.y / 2 + r > b.transform.translation.y + b.transform.scale.y / 2) := by linarith
      have e5 : ¬ (b.transform.translation.z - r < b.transform.translation.z - b.transform.scale.z / 2) := by linarith
      have e6 : ¬ (b.transform.translation.z + r > b.transform.translation.z + b.transform.scale.z / 2) := by linarith
      rcases le_or_lt r 0 with hr | hr
      · have eh : ¬ (b.transform.translation.y - b.transform.scale.y / 2 - r < b.transform.translation.y - b.transform.scale.y / 2) := by linarith
        simp [Boundary.check_portal_overextension, Boundary.faceCenter,
          face_to_remove_of_get_normal, Boundary.bmin, Boundary.bmax,
          Vec3.add_x, Vec3.add_y, Vec3.add_z, Vec3.sub_x, Vec3.sub_y, Vec3.sub_z,
          Vec3.sdiv_x, Vec3.sdiv_y, Vec3.sdiv_z,
          e1, e2, e4, e5, e6, eh]
      · have eh : b.transform.translation.y - b.transform.scale.y / 2 - r < b.transform.translation.y - b.transform.scale.y / 2 := by linarith
        simp [Boundary.check_portal_overextension, Boundary.faceCenter,
          face_to_remove_of_get_normal, Boundary.bmin, Boundary.bmax,
          Vec3.add_x, Vec3.add_y, Vec3.add_z, Vec3.sub_x, Vec3.sub_y, Vec3.sub_z,
          Vec3.sdiv_x, Vec3.sdiv_y, Vec3.sdiv_z,
          e1, e2, e4, e5, e6, eh]
    case Top =>
      have hm1 := min_le_left b.transform.scale.x b.transform.scale.z
      have hm2 := min_le_right b.transform.scale.x b.transform.scale.z
      have e1 : ¬ (b.transform.translation.x - r < b.transform.translation.x - b.transform.scale.x / 2) := by linarith
      have e2 : ¬ (b.transform.translation.x + r > b.transform.translation.x + b.transform.scale.x / 2) := by linarith
      have e3 : ¬ (b.transform.translation.y + b.transform.scale.y / 2 - r < b.transform.translation.y - b.transform.scale.y / 2) := by linarith
      have e5 : ¬ (b.transform.translation.z - r < b.transform.translation.z - b.transform.scale.z / 2) := by linarith
      have e6 : ¬ (b.transform.translation.z + r > b.transform.translation.z + b.transform.scale.z / 2) := by linarith
      rcases le_or_lt r 0 with hr | hr
      · have eh : ¬ (b.transform.translation.y + b.transform.scale.y / 2 + r > b.transform.translation.y + b.transform.scale.y / 2) := by linarith
        simp [Boundary.check_portal_overextension, Boundary.faceCenter,
          face_to_remove_of_get_normal, Boundary.bmin, Boundary.bmax,
          Vec3.add_x, Vec3.add_y, Vec3.add_z, Vec3.sub_x, Vec3.sub_y, Vec3.sub_z,
          Vec3.sdiv_x, Vec3.sdiv_y, Vec3.sdiv_z,
          e1, e2, e3, e5, e6, eh]
      · have eh : b.transform.translation.y + b.transform.scale.y / 2 + r > b.transform.translation.y + b.transform.scale.y / 2 := by linarith
        simp [Boundary.check_portal_overextension, Boundary.faceCenter,
          face_to_remove_of_get_normal, Boundary.bmin, Boundary.bmax,
          Vec3.add_x, Vec3.add_y, Vec3.add_z, Vec3.sub_x, Vec3.sub_y, Vec3.sub_z,
          Vec3.sdiv_x, Vec3.sdiv_y, Vec3.sdiv_z,
          e1, e2, e3, e5, e6, eh]
    case Back =>
      have hm1 := min_le_left b.transform.scale.x b.transform.scale.y
      have hm2 := min_le_right b.transform.scale.x b.transform.scale.y
      have e1 : ¬ (b.transform.translation.x - r < b.transform.translation.x - b.transform.scale.x / 2) := by linarith
      have e2 : ¬ (b.transform.translation.x + r > b.transform.translation.x + b.transform.scale.x / 2) := by linarith
      have e3 : ¬ (b.transform.translation.y - r < b.transform.translation.y - b.transform.scale.y / 2) := by linarith
      have e4 : ¬ (b.transform.translation.y + r > b.transform.translation.y + b.transform.scale.y / 2) := by linarith
      have e6 : ¬ (b.transform.translation.z - b.transform.scale.z / 2 + r > b.transform.translation.z + b.transform.scale.z / 2) := by linarith
      rcases le_or_lt r 0 with hr | hr
      · have eh : ¬ (b.transform.translation.z - b.transform.scale.z / 2 - r < b.transform.translation.z - b.transform.scale.z / 2) := by linarith
        simp [Boundary.check_portal_overextension, Boundary.faceCenter,
          face_to_remove_of_get_normal, Boundary.bmin, Boundary.bmax,
          Vec3.add_x, Vec3.add_y, Vec3.add_z, Vec3.sub_x, Vec3.sub_y, Vec3.sub_z,
          Vec3.sdiv_x, Vec3.sdiv_y, Vec3.sdiv_z,
          e1, e2, e3, e4, e6, eh]
      · have eh : b.transform.translation.z - b.transform.scale.z / 2 - r < b.transform.translation.z - b.transform.scale.z / 2 := by linarith
        simp [Boundary.check_portal_overextension, Boundary.faceCenter,
          face_to_remove_of_get_normal, Boundary.bmin, Boundary.bmax,
          Vec3.add_x, Vec3.add_y, Vec3.add_z, Vec3.sub_x, Vec3.sub_y, Vec3.sub_z,
          Vec3.sdiv_x, Vec3.sdiv_y, Vec3.sdiv_z,
          e1, e2, e3, e4, e6, eh]
    case Front =>
      have hm1 := min_le_left b.transform.scale.x b.transform.scale.y
      have hm2 := min_le_right b.transform.scale.x b.transform.scale.y
      have e1 : ¬ (b.transform.translation.x - r < b.transform.translation.x - b.transform.scale.x / 2) := by linarith
      have e2 : ¬ (b.transform.translation.x + r > b.transform.translation.x + b.transform.scale.x / 2) := by linarith
      have e3 : ¬ (b.transform.translation.y - r < b.transform.translation.y - b.transform.scale.y / 2) := by linarith
      have e4 : ¬ (b.transform.translation.y + r > b.transform.translation.y + b.transform.scale.y / 2) := by linarith
      have e5 : ¬ (b.transform.translation.z + b.transform.scale.z / 2 - r < b.transform.translation.z - b.transform.scale.z / 2) := by linarith
      rcases le_or_lt r 0 with hr | hr
      · have eh : ¬ (b.transform.translation.z + b.transform.scale.z / 2 + r > b.transform.translation.z + b.transform.scale.z / 2) := by linarith
        simp [Boundary.check_portal_overextension, Boundary.faceCenter,
          face_to_remove_of_get_normal, Boundary.bmin, Boundary.bmax,
          Vec3.add_x, Vec3.add_y, Vec3.add_z, Vec3.sub_x, Vec3.sub_y, Vec3.sub_z,
          Vec3.sdiv_x, Vec3.sdiv_y, Vec3.sdiv_z,
          e1, e2, e3, e4, e5, eh]
      · have eh : b.transform.translation.z + b.transform.scale.z / 2 + r > b.transform.translation.z + b.transform.scale.z / 2 := by linarith
        simp [Boundary.check_portal_overextension, Boundary.faceCenter,
          face_to_remove_of_get_normal, Boundary.bmin, Boundary.bmax,
          Vec3.add_x, Vec3.add_y, Vec3.add_z, Vec3.sub_x, Vec3.sub_y, Vec3.sub_z,
          Vec3.sdiv_x, Vec3.sdiv_y, Vec3.sdiv_z,
          e1, e2, e3, e4, e5, eh]

theorem check_portal_overextension_amended_witness :
    BoundaryFace.Right ∉ cexBoundary.check_portal_overextension cexPortal
    ∧ cexBoundary.check_portal_overextension
        ⟨cexBoundary.faceCenter BoundaryFace.Right, BoundaryFace.Right.get_normal, 1 / 2⟩
      = [] :=
  ⟨check_portal_overextension_amended.1 cexBoundary cexPortal BoundaryFace.Right rfl,
   check_portal_overextension_amended.2 cexBoundary BoundaryFace.Right (1 / 2)
     (by norm_num [cexBoundary, Boundary.faceShortestDim])
     (by norm_num [cexBoundary, Boundary.normalExtent])⟩

/-- C8: for any external angle-between primitive (glam's contract: the
non-negative angle of normalized vectors, in [0, TAU/2]), the sweep angle
handed to `arc_3d` is exactly TAU minus that angle (hence a reflex sweep,
between TAU/2 and TAU), and the start vector is `vec_from` exactly when
`(vec_from × vec_to) · normal` is negative (clockwise), `vec_to`
otherwise. -/
theorem draw_portal_arc_call (b : Boundary) (tau : ℚ)
    (angleBetween : Vec3 → Vec3 → ℚ) (normalize : Vec3 → Vec3)
    (portal : Portal) (fromPoint toPoint : Vec3)
    (hlo : 0 ≤ angleBetween (normalize (fromPoint - portal.position))
        (normalize (toPoint - portal.position)))
    (hhi : angleBetween (normalize (fromPoint - portal.position))
        (normalize (toPoint - portal.position)) ≤ tau / 2) :
    (b.draw_portal_arc tau angleBetween normalize portal fromPoint toPoint).angle
      = tau - angleBetween (normalize (fromPoint - portal.position))
          (normalize (toPoint - portal.position))
    ∧ (b.draw_portal_arc tau angleBetween normalize portal fromPoint toPoint).startVec
      = (if ((normalize (fromPoint - portal.position)).cross
              (normalize (toPoint - portal.position))).dot portal.normal < 0
         then normalize (fromPoint - portal.position)
         else normalize (toPoint - portal.position))
    ∧ tau / 2 ≤ (b.draw_portal_arc tau angleBetween normalize portal fromPoint toPoint).angle
    ∧ (b.draw_portal_arc tau angleBetween normalize portal fromPoint toPoint).angle ≤ tau := by
  unfold Boundary.draw_portal_arc
  refine ⟨rfl, ?_, by simp only []; linarith, by simp only []; linarith⟩
  simp only [decide_eq_true_eq]

theorem draw_portal_arc_call_witness :
    (cexBoundary.draw_portal_arc 6 (fun _ _ => 1) (fun v => v) cexPortal
        ⟨1, 0, 0⟩ ⟨0, 1, 0⟩).angle = 6 - 1 :=
  (draw_portal_arc_call cexBoundary 6 (fun _ _ => 1) (fun v => v) cexPortal
    ⟨1, 0, 0⟩ ⟨0, 1, 0⟩ (by norm_num) (by norm_num)).1

/-- Componentwise extensionality for `Vec3`. -/
theorem Vec3.ext_components (a b : Vec3) (hx : a.x = b.x) (hy : a.y = b.y)
    (hz : a.z = b.z) : a = b := by
  cases a; cases b; simp_all

/-- `update_t_min` leaves `none` exactly when it started at `none` and
the candidate fails the forward/in-bounds test. -/
theorem update_t_min_eq_none_iff (o d mn mx : Vec3) (start dir bound : ℚ) (tm : Option ℚ) :
    update_t_min o d mn mx start dir bound tm = none ↔
      tm = none ∧ ¬ (0 < (bound - start) / dir ∧
        is_in_bounds (o + d * ((bound - start) / dir)) start o mn mx = true) := by
  cases tm with
  | none => simp [update_t_min, ltTMin]
  | some v =>
      constructor
      · intro h
        exfalso
        unfold update_t_min at h
        dsimp only [] at h
        split at h <;> exact Option.noConfusion h
      · intro h
        exact absurd h.1 (Option.some_ne_none v)

/-- One axis step of `find_edge_point` leaves `none` exactly when it
started at `none` and neither bound of the axis is a valid crossing. -/
theorem axisUpdate_eq_none_iff (o d mn mx : Vec3) (start dir pos neg : ℚ) (tm : Option ℚ) :
    axisUpdate o d mn mx start dir pos neg tm = none ↔
      tm = none ∧ ¬ validCrossing o d mn mx start dir pos ∧
        ¬ validCrossing o d mn mx start dir neg := by
  unfold axisUpdate validCrossing
  by_cases hdir : dir ≠ 0
  · rw [if_pos hdir, update_t_min_eq_none_iff, update_t_min_eq_none_iff]
    tauto
  · rw [if_neg hdir]
    push_neg at hdir
    constructor
    · intro h
      exact ⟨h, fun hv => absurd hdir hv.1, fun hv => absurd hdir hv.1⟩
    · intro h
      exact h.1

/-- An axis with zero direction component is skipped. -/
theorem axisUpdate_zero (origin direction boundary_min boundary_max : Vec3)
    (start dir pos_bound neg_bound : ℚ) (t_min : Option ℚ) (h : dir = 0) :
    axisUpdate origin direction boundary_min boundary_max start dir pos_bound neg_bound t_min
      = t_min := by
  simp [axisUpdate, h]

/-- An axis with nonzero direction component tries the positive bound,
then the negative bound. -/
theorem axisUpdate_nonzero (origin direction boundary_min boundary_max : Vec3)
    (start dir pos_bound neg_bound : ℚ) (t_min : Option ℚ) (h : dir ≠ 0) :
    axisUpdate origin direction boundary_min boundary_max start dir pos_bound neg_bound t_min
      = update_t_min origin direction boundary_min boundary_max start dir neg_bound
          (update_t_min origin direction boundary_min boundary_max start dir pos_bound t_min) := by
  simp [axisUpdate, h]

/-- `update_t_min` accepts a candidate that is forward, beats the running
minimum and is in bounds. -/
theorem update_t_min_accept (o d mn mx : Vec3) (start dir bound : ℚ) (tm : Option ℚ)
    (h1 : 0 < (bound - start) / dir)
    (h2 : ltTMin ((bound - start) / dir) tm = true)
    (h3 : is_in_bounds (o + d * ((bound - start) / dir)) start o mn mx = true) :
    update_t_min o d mn mx start dir bound tm = some ((bound - start) / dir) := by
  unfold update_t_min
  dsimp only []
  rw [if_pos]
  simp only [Bool.and_eq_true, decide_eq_true_eq, gt_iff_lt]
  exact ⟨⟨h1, h2⟩, h3⟩

/-- `update_t_min` rejects a candidate with non-positive parametric
distance. -/
theorem update_t_min_reject (o d mn mx : Vec3) (start dir bound : ℚ) (tm : Option ℚ)
    (h1 : (bound - start) / dir ≤ 0) :
    update_t_min o d mn mx start dir bound tm = tm := by
  unfold update_t_min
  dsimp only []
  rw [if_neg]
  simp only [Bool.and_eq_true, decide_eq_true_eq, gt_iff_lt, not_and]
  intro h
  exact absurd h.1 (not_lt.mpr h1)

/-- C6: for a positive-scale boundary, a ray from the box centre along
`+X` exits at `(max.x, center.y, center.z)`: the smallest positive-t
crossing of an axis bound plane whose other two coordinates lie within
the box extents. -/
theorem find_edge_point_center_posX (b : Boundary)
    (hx : 0 < b.transform.scale.x) (hy : 0 < b.transform.scale.y)
    (hz : 0 < b.transform.scale.z) :
    b.find_edge_point b.transform.translation Vec3.unitX
      = some ⟨b.bmax.x, b.transform.translation.y, b.transform.translation.z⟩ := by
  unfold Boundary.find_edge_point
  dsimp only []
  set c := b.transform.translation with hcdef
  set s := b.transform.scale with hsdef
  rw [axisUpdate_zero _ _ _ _ _ _ _ _ _ (show Vec3.unitX.z = 0 from rfl)]
  rw [axisUpdate_zero _ _ _ _ _ _ _ _ _ (show Vec3.unitX.y = 0 from rfl)]
  rw [axisUpdate_nonzero _ _ _ _ _ _ _ _ _ (show Vec3.unitX.x ≠ 0 from by norm_num [Vec3.unitX])]
  have hacc : update_t_min c Vec3.unitX (c - s / (2 : ℚ)) (c + s / (2 : ℚ)) c.x Vec3.unitX.x
      ((c + s / (2 : ℚ)).x) none = some (((c + s / (2 : ℚ)).x - c.x) / Vec3.unitX.x) := by
    apply update_t_min_accept
    · simp [Vec3.unitX, Vec3.add_x, Vec3.sdiv_x]
      linarith
    · rfl
    · unfold is_in_bounds
      rw [if_pos rfl]
      simp only [Bool.and_eq_true, decide_eq_true_eq, ge_iff_le,
        Vec3.add_x, Vec3.add_y, Vec3.add_z, Vec3.sub_x, Vec3.sub_y, Vec3.sub_z,
        Vec3.smul_x, Vec3.smul_y, Vec3.smul_z, Vec3.sdiv_x, Vec3.sdiv_y, Vec3.sdiv_z,
        Vec3.unitX]
      and_intros <;> · simp; linarith
  rw [hacc]
  have hrej : update_t_min c Vec3.unitX (c - s / (2 : ℚ)) (c + s / (2 : ℚ)) c.x Vec3.unitX.x
      ((c - s / (2 : ℚ)).x) (some (((c + s / (2 : ℚ)).x - c.x) / Vec3.unitX.x))
      = some (((c + s / (2 : ℚ)).x - c.x) / Vec3.unitX.x) := by
    apply update_t_min_reject
    simp [Vec3.unitX, Vec3.sub_x, Vec3.sdiv_x]
    linarith
  rw [hrej]
  simp only [Option.map_some']
  refine congrArg some (Vec3.ext_components _ _ ?_ ?_ ?_) <;>
    simp [Vec3.unitX, Boundary.bmax, Vec3.add_x, Vec3.add_y, Vec3.add_z,
      Vec3.smul_x, Vec3.smul_y, Vec3.smul_z, Vec3.sdiv_x]

theorem find_edge_point_center_posX_witness :
    cexBoundary.find_edge_point cexBoundary.transform.translation Vec3.unitX
      = some ⟨cexBoundary.bmax.x, cexBoundary.transform.translation.y,
          cexBoundary.transform.translation.z⟩ :=
  find_edge_point_center_posX cexBoundary (by norm_num [cexBoundary])
    (by norm_num [cexBoundary]) (by norm_num [cexBoundary])

/-- C7: `find_edge_point` returns `none` exactly when none of the six
candidate plane crossings is forward (`t > 0`) and in bounds on the other
two axes; in particular the zero direction vector yields `none` rather
than an error. -/
theorem find_edge_point_none_iff :
    (∀ (b : Boundary) (o d : Vec3),
      b.find_edge_point o d = none ↔
        ¬ validCrossing o d b.bmin b.bmax o.x d.x b.bmax.x ∧
        ¬ validCrossing o d b.bmin b.bmax o.x d.x b.bmin.x ∧
        ¬ validCrossing o d b.bmin b.bmax o.y d.y b.bmax.y ∧
        ¬ validCrossing o d b.bmin b.bmax o.y d.y b.bmin.y ∧
        ¬ validCrossing o d b.bmin b.bmax o.z d.z b.bmax.z ∧
        ¬ validCrossing o d b.bmin b.bmax o.z d.z b.bmin.z)
    ∧ ∀ (b : Boundary) (o : Vec3), b.find_edge_point o Vec3.zero = none := by
  have main : ∀ (b : Boundary) (o d : Vec3),
      b.find_edge_point o d = none ↔
        ¬ validCrossing o d b.bmin b.bmax o.x d.x b.bmax.x ∧
        ¬ validCrossing o d b.bmin b.bmax o.x d.x b.bmin.x ∧
        ¬ validCrossing o d b.bmin b.bmax o.y d.y b.bmax.y ∧
        ¬ validCrossing o d b.bmin b.bmax o.y d.y b.bmin.y ∧
        ¬ validCrossing o d b.bmin b.bmax o.z d.z b.bmax.z ∧
        ¬ validCrossing o d b.bmin b.bmax o.z d.z b.bmin.z := by
    intro b o d
    unfold Boundary.find_edge_point
    rw [Option.map_eq_none', axisUpdate_eq_none_iff, axisUpdate_eq_none_iff,
      axisUpdate_eq_none_iff]
    simp only [Boundary.bmin, Boundary.bmax]
    tauto
  refine ⟨main, fun b o => (main b o Vec3.zero).mpr ?_⟩
  exact ⟨fun hv => hv.1 rfl, fun hv => hv.1 rfl, fun hv => hv.1 rfl,
    fun hv => hv.1 rfl, fun hv => hv.1 rfl, fun hv => hv.1 rfl⟩
